import Mathlib

/-!
Verification of the ProximityGuard geo core and the mobile location store
of the `layers` repository.

Of the ProximityGuard module described in the repository's design
documents, the distance computation and the radius check are implemented in
the source tree — `calculateDistance` and the `useLocation` hook's
`isWithinRadius` in `src/mobile/src/services/api.ts` — and are embedded
below from that source. The anti-cheat evaluator and the fog-of-war chunk
computation are not implemented (the docs mark them TODO), so those
definitions are modelled from the specification text. The location store
is embedded from `src/mobile/src/store/locationStore.ts`.
-/
namespace ProximityGuard

open Classical

/-- `Coordinate`: latitude/longitude pair, an immutable value type (spec
section 3); the source passes the two scalars separately. -/
structure Coordinate where
  latitude : ℝ
  longitude : ℝ

/-- Modelled from the spec: a coordinate is valid when latitude lies in
[-90, 90] and longitude lies in [-180, 180]. -/
def Coordinate.isValid (c : Coordinate) : Prop :=
  -90 ≤ c.latitude ∧ c.latitude ≤ 90 ∧ -180 ≤ c.longitude ∧ c.longitude ≤ 180

/-- Modelled from the spec: `LocationReport` — one GPS sample as consumed by
the evaluator. Timestamps are in seconds. -/
structure LocationReport where
  coordinate : Coordinate
  timestamp : ℝ
  accuracy_meters : ℝ
  is_mocked : Bool
  reporter_id : ℕ

/-- Modelled from the spec: fog-of-war chunk key, a pair of integer indices. -/
structure FogChunk where
  chunk_x : ℤ
  chunk_y : ℤ
deriving DecidableEq

/-- Modelled from the spec: mean Earth radius, 6,371,000 m. -/
noncomputable def EARTH_RADIUS_METERS : ℝ := 6371000

/-- Degrees to radians. -/
noncomputable def toRadians (deg : ℝ) : ℝ := deg * Real.pi / 180

/-- The haversine of the central angle between two coordinates:
sin²(Δφ/2) + cos φ₁ · cos φ₂ · sin²(Δλ/2). This is the value `a` computed
by `calculateDistance` in `src/mobile/src/services/api.ts` (lines 450-452),
written over `Coordinate`; the match with the embedded `calculateDistance`
is proved in `calculateDistance_coords`. -/
noncomputable def haversineRaw (a b : Coordinate) : ℝ :=
  Real.sin (toRadians (b.latitude - a.latitude) / 2) ^ 2 +
    Real.cos (toRadians a.latitude) * Real.cos (toRadians b.latitude) *
      Real.sin (toRadians (b.longitude - a.longitude) / 2) ^ 2

/-- The haversine great-circle distance in arcsin form, used by the
spec-modelled anti-cheat evaluator. The repository implements this distance
as `calculateDistance` (api.ts:438-456) in atan2 form; the two agree on
valid coordinates (`calculateDistance_eq_distanceMeters`). -/
noncomputable def distanceMeters (a b : Coordinate) : ℝ :=
  2 * EARTH_RADIUS_METERS * Real.arcsin (Real.sqrt (haversineRaw a b))

/-- The spherical-law-of-cosines central angle between two coordinates, the
reference definition of the true great-circle angle. -/
noncomputable def centralAngle (a b : Coordinate) : ℝ :=
  Real.arccos (Real.sin (toRadians a.latitude) * Real.sin (toRadians b.latitude) +
    Real.cos (toRadians a.latitude) * Real.cos (toRadians b.latitude) *
      Real.cos (toRadians (b.longitude - a.longitude)))

/-- Reference definition: the true great-circle distance on a sphere of mean
Earth radius. -/
noncomputable def trueGreatCircleDistanceMeters (a b : Coordinate) : ℝ :=
  EARTH_RADIUS_METERS * centralAngle a b

/-- Modelled from the spec: `chunkOf` — locally linear degree-per-chunk
conversion; `chunk_x = floor(longitude / lonDegPerChunk)`,
`chunk_y = floor(latitude / latDegPerChunk)`. -/
noncomputable def chunkOf (coord : Coordinate) (chunkSizeMeters originLatitudeDeg : ℝ) :
    FogChunk :=
  let lonDegPerChunk := chunkSizeMeters / (111320 * Real.cos (toRadians originLatitudeDeg))
  let latDegPerChunk := chunkSizeMeters / 110540
  ⟨⌊coord.longitude / lonDegPerChunk⌋, ⌊coord.latitude / latDegPerChunk⌋⟩

/-- Modelled from the spec: anti-cheat reason codes. -/
inductive ReasonCode where
  | MOCKED
  | IMPOSSIBLE_SPEED
  | RATE_LIMIT_EXCEEDED
  | TOO_CLOSE_TO_EXISTING
deriving DecidableEq

/-- Modelled from the spec: `AntiCheatVerdict` — transient result;
`flagged` holds exactly when the reasons set is non-empty. -/
structure AntiCheatVerdict where
  flagged : Prop
  reasons : Finset ReasonCode

/-- Modelled from the spec: the tunable anti-cheat policy constants — the
5000 m/s speed threshold, the daily submission cap of 3, the 20 m minimum
distance between artifacts, and the epsilon guarding division by a zero
elapsed time. -/
structure AntiCheatConfig where
  maxSpeedMps : ℝ
  dailyCap : ℕ
  minArtifactDistanceMeters : ℝ
  epsilonSeconds : ℝ

/-- Modelled from the spec: the default tunable constants. -/
noncomputable def defaultConfig : AntiCheatConfig :=
  { maxSpeedMps := 5000
    dailyCap := 3
    minArtifactDistanceMeters := 20
    epsilonSeconds := 1 / 1000000000 }

/-- Modelled from the spec: `evaluateReport` — all four checks run
independently and every triggered reason is collected; `flagged` is the
non-emptiness of the reasons set. The speed check computes
`speed = distanceMeters(prev, cur) / max(elapsedSeconds, epsilon)` and
flags when `speed > maxSpeedMps`. -/
noncomputable def evaluateReport (cfg : AntiCheatConfig) (report : LocationReport)
    (previousReport : Option LocationReport) (recentReportsToday : ℕ)
    (recentArtifactPlacements : List Coordinate) : AntiCheatVerdict :=
  let mockedReasons : Finset ReasonCode :=
    if report.is_mocked then {ReasonCode.MOCKED} else ∅
  let speedReasons : Finset ReasonCode :=
    match previousReport with
    | none => ∅
    | some prev =>
        if distanceMeters prev.coordinate report.coordinate /
            max (report.timestamp - prev.timestamp) cfg.epsilonSeconds >
            cfg.maxSpeedMps then {ReasonCode.IMPOSSIBLE_SPEED} else ∅
  let rateReasons : Finset ReasonCode :=
    if cfg.dailyCap ≤ recentReportsToday then {ReasonCode.RATE_LIMIT_EXCEEDED} else ∅
  let closeReasons : Finset ReasonCode :=
    if ∃ p ∈ recentArtifactPlacements,
        distanceMeters p report.coordinate ≤ cfg.minArtifactDistanceMeters
      then {ReasonCode.TOO_CLOSE_TO_EXISTING} else ∅
  let reasons := mockedReasons ∪ speedReasons ∪ rateReasons ∪ closeReasons
  ⟨reasons.Nonempty, reasons⟩

/-- `Math.atan2(y, x)` of JavaScript, in real-number semantics: the angle
of the point (x, y), in (-π, π]. -/
noncomputable def atan2 (y x : ℝ) : ℝ :=
  if 0 < x then Real.arctan (y / x)
  else if x < 0 ∧ 0 ≤ y then Real.arctan (y / x) + Real.pi
  else if x < 0 ∧ y < 0 then Real.arctan (y / x) - Real.pi
  else if x = 0 ∧ 0 < y then Real.pi / 2
  else if x = 0 ∧ y < 0 then -(Real.pi / 2)
  else 0

/-- Embedded from `src/mobile/src/services/api.ts` lines 438-456:
`calculateDistance(lat1, lon1, lat2, lon2)` — haversine distance with
`R = 6371e3` and `c = 2 * atan2(√a, √(1 - a))`. -/
noncomputable def calculateDistance (lat1 lon1 lat2 lon2 : ℝ) : ℝ :=
  let R : ℝ := 6371000
  let phi1 := lat1 * Real.pi / 180
  let phi2 := lat2 * Real.pi / 180
  let dphi := (lat2 - lat1) * Real.pi / 180
  let dlam := (lon2 - lon1) * Real.pi / 180
  let a := Real.sin (dphi / 2) * Real.sin (dphi / 2) +
    Real.cos phi1 * Real.cos phi2 * Real.sin (dlam / 2) * Real.sin (dlam / 2)
  let c := 2 * atan2 (Real.sqrt a) (Real.sqrt (1 - a))
  R * c

/-- Embedded from `src/mobile/src/services/api.ts` lines 369-383: the
`useLocation` hook's `isWithinRadius(targetLat, targetLng, radiusMeters)` —
returns `false` when no current location is available, otherwise the plain
boolean `distance <= radiusMeters`. It performs no validation and has no
error outcome. -/
noncomputable def isWithinRadius (currentLocation : Option Coordinate)
    (targetLat targetLng radiusMeters : ℝ) : Bool :=
  match currentLocation with
  | none => false
  | some loc =>
      decide (calculateDistance loc.latitude loc.longitude targetLat targetLng ≤
        radiusMeters)

end ProximityGuard

namespace LocationStore

/-- Embedded from `src/mobile/src/store/locationStore.ts`: the coordinate
pair held by the store. -/
structure Coordinates where
  latitude : ℝ
  longitude : ℝ

/-- Embedded from `expo-location`'s permission statuses as used by the
store. -/
inductive PermissionStatus where
  | granted
  | denied
  | undetermined
deriving DecidableEq

/-- Embedded from `src/mobile/src/store/locationStore.ts`: the Zustand
state shape (actions excluded). -/
structure LocationState where
  currentLocation : Option Coordinates
  lastKnownLocation : Option Coordinates
  permissionStatus : Option PermissionStatus
  isLoading : Bool
  error : Option String
  isWatching : Bool
  accuracy : Option ℝ
  heading : Option ℝ
  speed : Option ℝ

/-- The store's initial state: every field null/false. -/
def initialState : LocationState :=
  { currentLocation := none
    lastKnownLocation := none
    permissionStatus := none
    isLoading := false
    error := none
    isWatching := false
    accuracy := none
    heading := none
    speed := none }

/-- `requestPermission`: `set({ permissionStatus })` (lines 59 and 65). -/
def applyPermissionStatus (st : PermissionStatus) (s : LocationState) : LocationState :=
  { s with permissionStatus := some st }

/-- `requestPermission`: `set({ error: "Location permission denied" })`
(line 68). -/
def applyPermissionDenied (s : LocationState) : LocationState :=
  { s with error := some "Location permission denied" }

/-- `requestPermission` catch branch (line 75). -/
def applyPermissionRequestFailed (s : LocationState) : LocationState :=
  { s with error := some "Failed to request location permission" }

/-- `getCurrentLocation`: `set({ isLoading: true, error: null })` (line 90). -/
def applyGetLocationLoading (s : LocationState) : LocationState :=
  { s with isLoading := true, error := none }

/-- `getCurrentLocation` success branch (lines 102-110): writes the same
coords to both `currentLocation` and `lastKnownLocation`. -/
def applyGetLocationSuccess (c : Coordinates) (acc hd sp : Option ℝ)
    (s : LocationState) : LocationState :=
  { s with currentLocation := some c
           lastKnownLocation := some c
           accuracy := acc
           heading := hd
           speed := sp
           isLoading := false
           error := none }

/-- `getCurrentLocation` catch branch (lines 125-128); the message is one of
the three strings chosen there, abstracted as an arbitrary string. -/
def applyGetLocationFailure (msg : String) (s : LocationState) : LocationState :=
  { s with error := some msg, isLoading := false }

/-- `watchLocation` position-update callback (lines 168-175): writes the
same coords to both `currentLocation` and `lastKnownLocation`. -/
def applyWatchUpdate (c : Coordinates) (acc hd sp : Option ℝ)
    (s : LocationState) : LocationState :=
  { s with currentLocation := some c
           lastKnownLocation := some c
           accuracy := acc
           heading := hd
           speed := sp
           error := none }

/-- `watchLocation`: `set({ isWatching: true, error: null })` (line 179). -/
def applyWatchStarted (s : LocationState) : LocationState :=
  { s with isWatching := true, error := none }

/-- `watchLocation` catch branch (line 183). -/
def applyWatchFailed (s : LocationState) : LocationState :=
  { s with error := some "Failed to start location tracking" }

/-- `stopWatching`: `set({ isWatching: false })` (line 193). -/
def applyStopWatching (s : LocationState) : LocationState :=
  { s with isWatching := false }

/-- `setLocation` (lines 198-203): writes the same value to both
`currentLocation` and `lastKnownLocation`. -/
def applySetLocation (c : Coordinates) (s : LocationState) : LocationState :=
  { s with currentLocation := some c, lastKnownLocation := some c }

/-- `clearError` (line 206). -/
def applyClearError (s : LocationState) : LocationState :=
  { s with error := none }

/-- `reset` (lines 209-225): restores every field to its initial value. -/
def applyReset (_s : LocationState) : LocationState := initialState

/-- One atomic `set(...)` call of the store, one constructor per call site. -/
inductive Step : LocationState → LocationState → Prop where
  | permissionStatus (st : PermissionStatus) (s : LocationState) :
      Step s (applyPermissionStatus st s)
  | permissionDenied (s : LocationState) : Step s (applyPermissionDenied s)
  | permissionRequestFailed (s : LocationState) : Step s (applyPermissionRequestFailed s)
  | getLocationLoading (s : LocationState) : Step s (applyGetLocationLoading s)
  | getLocationSuccess (c : Coordinates) (acc hd sp : Option ℝ) (s : LocationState) :
      Step s (applyGetLocationSuccess c acc hd sp s)
  | getLocationFailure (msg : String) (s : LocationState) :
      Step s (applyGetLocationFailure msg s)
  | watchUpdate (c : Coordinates) (acc hd sp : Option ℝ) (s : LocationState) :
      Step s (applyWatchUpdate c acc hd sp s)
  | watchStarted (s : LocationState) : Step s (applyWatchStarted s)
  | watchFailed (s : LocationState) : Step s (applyWatchFailed s)
  | stopWatching (s : LocationState) : Step s (applyStopWatching s)
  | setLocation (c : Coordinates) (s : LocationState) : Step s (applySetLocation c s)
  | clearError (s : LocationState) : Step s (applyClearError s)
  | reset (s : LocationState) : Step s (applyReset s)

/-- A state is reachable when some sequence of `set` calls produces it from
the initial state. -/
def Reachable (s : LocationState) : Prop :=
  Relation.ReflTransGen Step initialState s

end LocationStore

namespace ProximityGuard

open Classical

theorem haversineRaw_comm (a b : Coordinate) : haversineRaw a b = haversineRaw b a := by
  have key : ∀ x y : ℝ, Real.sin (toRadians (x - y) / 2) ^ 2
      = Real.sin (toRadians (y - x) / 2) ^ 2 := by
    intro x y
    rw [show x - y = -(y - x) by ring]
    rw [show toRadians (-(y - x)) = -(toRadians (y - x)) by simp [toRadians]; ring]
    rw [neg_div, Real.sin_neg, neg_sq]
  unfold haversineRaw
  rw [key b.latitude a.latitude, key b.longitude a.longitude,
    mul_comm (Real.cos (toRadians a.latitude)) (Real.cos (toRadians b.latitude))]

theorem distanceMeters_comm (a b : Coordinate) : distanceMeters a b = distanceMeters b a := by
  unfold distanceMeters
  rw [haversineRaw_comm]

theorem haversineRaw_self (a : Coordinate) : haversineRaw a a = 0 := by
  simp [haversineRaw, toRadians]

theorem distanceMeters_self (a : Coordinate) : distanceMeters a a = 0 := by
  simp [distanceMeters, haversineRaw_self]

theorem toRadians_sub (x y : ℝ) : toRadians (x - y) = toRadians x - toRadians y := by
  unfold toRadians; ring

theorem toRadians_mem_of_lat {lat : ℝ} (h₁ : -90 ≤ lat) (h₂ : lat ≤ 90) :
    -(Real.pi / 2) ≤ toRadians lat ∧ toRadians lat ≤ Real.pi / 2 := by
  have hπ := Real.pi_pos
  constructor
  · unfold toRadians; nlinarith
  · unfold toRadians; nlinarith

theorem haversineRaw_eq_half_sub (a b : Coordinate) :
    haversineRaw a b =
      (1 - (Real.sin (toRadians a.latitude) * Real.sin (toRadians b.latitude) +
        Real.cos (toRadians a.latitude) * Real.cos (toRadians b.latitude) *
          Real.cos (toRadians (b.longitude - a.longitude)))) / 2 := by
  unfold haversineRaw
  rw [toRadians_sub b.latitude a.latitude]
  rw [Real.sin_sq_eq_half_sub, Real.sin_sq_eq_half_sub]
  rw [show 2 * ((toRadians b.latitude - toRadians a.latitude) / 2)
      = toRadians b.latitude - toRadians a.latitude by ring]
  rw [show 2 * (toRadians (b.longitude - a.longitude) / 2)
      = toRadians (b.longitude - a.longitude) by ring]
  rw [Real.cos_sub]
  ring

theorem dotProduct_mem_Icc {a b : Coordinate} (ha : a.isValid) (hb : b.isValid) :
    -1 ≤ Real.sin (toRadians a.latitude) * Real.sin (toRadians b.latitude) +
        Real.cos (toRadians a.latitude) * Real.cos (toRadians b.latitude) *
          Real.cos (toRadians (b.longitude - a.longitude)) ∧
      Real.sin (toRadians a.latitude) * Real.sin (toRadians b.latitude) +
        Real.cos (toRadians a.latitude) * Real.cos (toRadians b.latitude) *
          Real.cos (toRadians (b.longitude - a.longitude)) ≤ 1 := by
  obtain ⟨ha1, ha2, -, -⟩ := ha
  obtain ⟨hb1, hb2, -, -⟩ := hb
  obtain ⟨hpa1, hpa2⟩ := toRadians_mem_of_lat ha1 ha2
  obtain ⟨hpb1, hpb2⟩ := toRadians_mem_of_lat hb1 hb2
  set p := toRadians a.latitude
  set q := toRadians b.latitude
  set l := toRadians (b.longitude - a.longitude)
  have hcp : 0 ≤ Real.cos p := Real.cos_nonneg_of_mem_Icc ⟨hpa1, hpa2⟩
  have hcq : 0 ≤ Real.cos q := Real.cos_nonneg_of_mem_Icc ⟨hpb1, hpb2⟩
  have hl1 : Real.cos l ≤ 1 := Real.cos_le_one l
  have hl2 : -1 ≤ Real.cos l := Real.neg_one_le_cos l
  have h2 : 0 ≤ Real.cos p * Real.cos q := mul_nonneg hcp hcq
  constructor
  · have hsub : Real.cos (p + q) = Real.cos p * Real.cos q - Real.sin p * Real.sin q :=
      Real.cos_add p q
    have h1 : Real.cos (p + q) ≤ 1 := Real.cos_le_one (p + q)
    have h3 : Real.cos p * Real.cos q * (-1) ≤ Real.cos p * Real.cos q * Real.cos l :=
      mul_le_mul_of_nonneg_left hl2 h2
    linarith
  · have hsub : Real.cos (p - q) = Real.cos p * Real.cos q + Real.sin p * Real.sin q :=
      Real.cos_sub p q
    have h1 : Real.cos (p - q) ≤ 1 := Real.cos_le_one (p - q)
    have h3 : Real.cos p * Real.cos q * Real.cos l ≤ Real.cos p * Real.cos q * 1 :=
      mul_le_mul_of_nonneg_left hl1 h2
    linarith

/-- For valid coordinates the haversine formula computes exactly the true
great-circle distance: `distanceMeters = R * centralAngle`. -/
theorem distanceMeters_eq_trueGreatCircle {a b : Coordinate}
    (ha : a.isValid) (hb : b.isValid) :
    distanceMeters a b = trueGreatCircleDistanceMeters a b := by
  obtain ⟨hC1, hC2⟩ := dotProduct_mem_Icc ha hb
  set C := Real.sin (toRadians a.latitude) * Real.sin (toRadians b.latitude) +
      Real.cos (toRadians a.latitude) * Real.cos (toRadians b.latitude) *
        Real.cos (toRadians (b.longitude - a.longitude)) with hCdef
  have hθ0 : 0 ≤ Real.arccos C := Real.arccos_nonneg C
  have hθπ : Real.arccos C ≤ Real.pi := Real.arccos_le_pi C
  have hcos : Real.cos (Real.arccos C) = C := Real.cos_arccos hC1 hC2
  have hhav : haversineRaw a b = Real.sin (Real.arccos C / 2) ^ 2 := by
    rw [haversineRaw_eq_half_sub, ← hCdef, Real.sin_sq_eq_half_sub,
      show 2 * (Real.arccos C / 2) = Real.arccos C by ring, hcos]
    ring
  have hsin0 : 0 ≤ Real.sin (Real.arccos C / 2) := by
    apply Real.sin_nonneg_of_nonneg_of_le_pi
    · linarith
    · linarith
  unfold distanceMeters trueGreatCircleDistanceMeters centralAngle
  rw [hhav, Real.sqrt_sq hsin0, Real.arcsin_sin (by linarith) (by linarith), ← hCdef]
  ring

theorem arcsin_sqrt_sin_sq {x : ℝ} (h0 : 0 ≤ x) (h1 : x ≤ Real.pi / 2) :
    Real.arcsin (Real.sqrt (Real.sin x ^ 2)) = x := by
  have hπ := Real.pi_pos
  have hs : 0 ≤ Real.sin x := Real.sin_nonneg_of_nonneg_of_le_pi h0 (by linarith)
  rw [Real.sqrt_sq hs, Real.arcsin_sin (by linarith) h1]

theorem haversineRaw_lonOffset (d : ℝ) :
    haversineRaw ⟨0, 0⟩ ⟨0, d⟩ = Real.sin (toRadians d / 2) ^ 2 := by
  simp [haversineRaw, toRadians]

theorem haversineRaw_latOffset (d : ℝ) :
    haversineRaw ⟨0, 0⟩ ⟨d, 0⟩ = Real.sin (toRadians d / 2) ^ 2 := by
  simp [haversineRaw, toRadians]

theorem toRadians_half_mem {d : ℝ} (h0 : 0 ≤ d) (h1 : d ≤ 180) :
    0 ≤ toRadians d / 2 ∧ toRadians d / 2 ≤ Real.pi / 2 := by
  have hπ := Real.pi_pos
  constructor
  · have : 0 ≤ d * Real.pi := mul_nonneg h0 (le_of_lt hπ)
    unfold toRadians; linarith
  · unfold toRadians; nlinarith

theorem distanceMeters_lonOffset {d : ℝ} (h0 : 0 ≤ d) (h1 : d ≤ 180) :
    distanceMeters ⟨0, 0⟩ ⟨0, d⟩ = 6371000 * (d * Real.pi / 180) := by
  obtain ⟨hx0, hx1⟩ := toRadians_half_mem h0 h1
  unfold distanceMeters EARTH_RADIUS_METERS
  rw [haversineRaw_lonOffset, arcsin_sqrt_sin_sq hx0 hx1]
  unfold toRadians; ring

theorem distanceMeters_latOffset {d : ℝ} (h0 : 0 ≤ d) (h1 : d ≤ 180) :
    distanceMeters ⟨0, 0⟩ ⟨d, 0⟩ = 6371000 * (d * Real.pi / 180) := by
  obtain ⟨hx0, hx1⟩ := toRadians_half_mem h0 h1
  unfold distanceMeters EARTH_RADIUS_METERS
  rw [haversineRaw_latOffset, arcsin_sqrt_sin_sq hx0 hx1]
  unfold toRadians; ring

theorem mem_reasons_mocked (cfg : AntiCheatConfig) (report : LocationReport)
    (prevOpt : Option LocationReport) (n : ℕ) (pl : List Coordinate) :
    ReasonCode.MOCKED ∈ (evaluateReport cfg report prevOpt n pl).reasons ↔
      report.is_mocked = true := by
  cases prevOpt <;>
    · simp only [evaluateReport]
      split_ifs <;> simp_all

theorem mem_reasons_rate (cfg : AntiCheatConfig) (report : LocationReport)
    (prevOpt : Option LocationReport) (n : ℕ) (pl : List Coordinate) :
    ReasonCode.RATE_LIMIT_EXCEEDED ∈ (evaluateReport cfg report prevOpt n pl).reasons ↔
      cfg.dailyCap ≤ n := by
  cases prevOpt <;>
    · simp only [evaluateReport]
      split_ifs <;> simp_all

theorem mem_reasons_close (cfg : AntiCheatConfig) (report : LocationReport)
    (prevOpt : Option LocationReport) (n : ℕ) (pl : List Coordinate) :
    ReasonCode.TOO_CLOSE_TO_EXISTING ∈ (evaluateReport cfg report prevOpt n pl).reasons ↔
      ∃ p ∈ pl, distanceMeters p report.coordinate ≤ cfg.minArtifactDistanceMeters := by
  cases prevOpt <;>
    · simp only [evaluateReport]
      split_ifs <;> simp_all

theorem mem_reasons_speed_some (cfg : AntiCheatConfig) (report prev : LocationReport)
    (n : ℕ) (pl : List Coordinate) :
    ReasonCode.IMPOSSIBLE_SPEED ∈ (evaluateReport cfg report (some prev) n pl).reasons ↔
      distanceMeters prev.coordinate report.coordinate /
        max (report.timestamp - prev.timestamp) cfg.epsilonSeconds > cfg.maxSpeedMps := by
  simp only [evaluateReport]
  split_ifs <;> simp_all

theorem mem_reasons_speed (cfg : AntiCheatConfig) (report : LocationReport)
    (prevOpt : Option LocationReport) (n : ℕ) (pl : List Coordinate) :
    ReasonCode.IMPOSSIBLE_SPEED ∈ (evaluateReport cfg report prevOpt n pl).reasons ↔
      ∃ prev, prevOpt = some prev ∧
        distanceMeters prev.coordinate report.coordinate /
          max (report.timestamp - prev.timestamp) cfg.epsilonSeconds > cfg.maxSpeedMps := by
  cases prevOpt with
  | none =>
      simp only [evaluateReport]
      split_ifs <;> simp_all
  | some prev =>
      rw [mem_reasons_speed_some]
      simp

theorem flagged_iff_reasons_nonempty (cfg : AntiCheatConfig) (report : LocationReport)
    (prevOpt : Option LocationReport) (n : ℕ) (pl : List Coordinate) :
    (evaluateReport cfg report prevOpt n pl).flagged ↔
      (evaluateReport cfg report prevOpt n pl).reasons ≠ ∅ := by
  have : (evaluateReport cfg report prevOpt n pl).flagged ↔
      (evaluateReport cfg report prevOpt n pl).reasons.Nonempty := by
    simp only [evaluateReport]
  rw [this, Finset.nonempty_iff_ne_empty]

/-- C1: for every report with `is_mocked = true`, `evaluateReport` includes
`MOCKED` in the verdict's reasons regardless of the other arguments;
`flagged` holds exactly when the reasons set is non-empty; and each of the
four checks contributes its reason independently of the others (no
short-circuiting), so the reasons set is fully characterised check by
check. -/
theorem claim_C1_mocked_flagged_independent (cfg : AntiCheatConfig)
    (report : LocationReport) (prevOpt : Option LocationReport) (n : ℕ)
    (pl : List Coordinate) :
    (ReasonCode.MOCKED ∈ (evaluateReport cfg report prevOpt n pl).reasons ↔
      report.is_mocked = true) ∧
    ((evaluateReport cfg report prevOpt n pl).flagged ↔
      (evaluateReport cfg report prevOpt n pl).reasons ≠ ∅) ∧
    (ReasonCode.RATE_LIMIT_EXCEEDED ∈ (evaluateReport cfg report prevOpt n pl).reasons ↔
      cfg.dailyCap ≤ n) ∧
    (ReasonCode.TOO_CLOSE_TO_EXISTING ∈ (evaluateReport cfg report prevOpt n pl).reasons ↔
      ∃ p ∈ pl, distanceMeters p report.coordinate ≤ cfg.minArtifactDistanceMeters) ∧
    (ReasonCode.IMPOSSIBLE_SPEED ∈ (evaluateReport cfg report prevOpt n pl).reasons ↔
      ∃ prev, prevOpt = some prev ∧
        distanceMeters prev.coordinate report.coordinate /
          max (report.timestamp - prev.timestamp) cfg.epsilonSeconds > cfg.maxSpeedMps) :=
  ⟨mem_reasons_mocked cfg report prevOpt n pl,
   flagged_iff_reasons_nonempty cfg report prevOpt n pl,
   mem_reasons_rate cfg report prevOpt n pl,
   mem_reasons_close cfg report prevOpt n pl,
   mem_reasons_speed cfg report prevOpt n pl⟩

/-- C7: `RATE_LIMIT_EXCEEDED` is included exactly when `recentReportsToday`
is at least the configured daily cap; with the default cap of 3, a count of
3 flags and a count of 2 does not. -/
theorem claim_C7_rate_limit (cfg : AntiCheatConfig) (report : LocationReport)
    (prevOpt : Option LocationReport) (n : ℕ) (pl : List Coordinate) :
    (ReasonCode.RATE_LIMIT_EXCEEDED ∈ (evaluateReport cfg report prevOpt n pl).reasons ↔
      cfg.dailyCap ≤ n) ∧
    ReasonCode.RATE_LIMIT_EXCEEDED ∈
      (evaluateReport defaultConfig report prevOpt 3 pl).reasons ∧
    ReasonCode.RATE_LIMIT_EXCEEDED ∉
      (evaluateReport defaultConfig report prevOpt 2 pl).reasons := by
  refine ⟨mem_reasons_rate cfg report prevOpt n pl, ?_, ?_⟩
  · rw [mem_reasons_rate]
    simp [defaultConfig]
  · rw [mem_reasons_rate]
    simp [defaultConfig]

/-- C8: `TOO_CLOSE_TO_EXISTING` is included exactly when some recent
placement lies within the configured minimum distance of the report's
coordinate; at the default configuration the bound is 20 m, so a placement
at distance 15 flags and one at distance 25 does not. -/
theorem claim_C8_too_close (cfg : AntiCheatConfig) (report : LocationReport)
    (prevOpt : Option LocationReport) (n : ℕ) (pl : List Coordinate) :
    (ReasonCode.TOO_CLOSE_TO_EXISTING ∈ (evaluateReport cfg report prevOpt n pl).reasons ↔
      ∃ p ∈ pl, distanceMeters p report.coordinate ≤ cfg.minArtifactDistanceMeters) ∧
    (ReasonCode.TOO_CLOSE_TO_EXISTING ∈
        (evaluateReport defaultConfig report prevOpt n pl).reasons ↔
      ∃ p ∈ pl, distanceMeters p report.coordinate ≤ 20) := by
  refine ⟨mem_reasons_close cfg report prevOpt n pl, ?_⟩
  rw [mem_reasons_close]
  simp [defaultConfig]

/-- C2 (amended): with a previous report present, `IMPOSSIBLE_SPEED` is
included exactly when `distanceMeters(prev, cur) / max(elapsedSeconds,
epsilon)` exceeds the 5000 m/s threshold; when the elapsed time is zero the
divisor is the configured epsilon (10⁻⁹ s by default), so the check flags
exactly when the movement exceeds 5000·epsilon metres — not for every
nonzero movement. -/
theorem claim_C2_impossible_speed :
    (∀ (cfg : AntiCheatConfig) (report prev : LocationReport) (n : ℕ)
        (pl : List Coordinate),
      ReasonCode.IMPOSSIBLE_SPEED ∈ (evaluateReport cfg report (some prev) n pl).reasons ↔
        distanceMeters prev.coordinate report.coordinate /
          max (report.timestamp - prev.timestamp) cfg.epsilonSeconds > cfg.maxSpeedMps) ∧
    (∀ (c1 c2 : Coordinate) (t a1 a2 : ℝ) (m1 m2 : Bool) (i1 i2 n : ℕ)
        (pl : List Coordinate),
      ReasonCode.IMPOSSIBLE_SPEED ∈
          (evaluateReport defaultConfig ⟨c2, t, a2, m2, i2⟩
            (some ⟨c1, t, a1, m1, i1⟩) n pl).reasons ↔
        distanceMeters c1 c2 > 5000 * (1 / 1000000000)) := by
  constructor
  · exact fun cfg report prev n pl => mem_reasons_speed_some cfg report prev n pl
  · intro c1 c2 t a1 a2 m1 m2 i1 i2 n pl
    rw [mem_reasons_speed_some]
    show distanceMeters c1 c2 / max (t - t) (1 / 1000000000) > 5000 ↔
      distanceMeters c1 c2 > 5000 * (1 / 1000000000)
    rw [sub_self, max_eq_right (by norm_num : (0:ℝ) ≤ 1 / 1000000000),
      gt_iff_lt, lt_div_iff₀ (by norm_num : (0:ℝ) < 1 / 1000000000), gt_iff_lt]

/-- C2 counterexample: a previous report at the same instant
(elapsedSeconds = 0) with a strictly positive but tiny movement (about
1.1·10⁻⁸ m here) does not trigger `IMPOSSIBLE_SPEED`, refuting "elapsed 0
with nonzero movement always flags". -/
theorem claim_C2_counterexample :
    0 < distanceMeters ⟨0, 0⟩ ⟨1 / 10 ^ 13, 0⟩ ∧
    ReasonCode.IMPOSSIBLE_SPEED ∉
      (evaluateReport defaultConfig ⟨⟨1 / 10 ^ 13, 0⟩, 0, 0, false, 0⟩
        (some ⟨⟨0, 0⟩, 0, 0, false, 0⟩) 0 []).reasons := by
  have hπu := Real.pi_lt_four
  have hπl := Real.pi_gt_three
  have hdist : distanceMeters ⟨0, 0⟩ ⟨1 / 10 ^ 13, 0⟩
      = 6371000 * ((1 / 10 ^ 13) * Real.pi / 180) :=
    distanceMeters_latOffset (by norm_num) (by norm_num)
  constructor
  · rw [hdist]
    nlinarith
  · rw [mem_reasons_speed_some]
    show ¬ (distanceMeters ⟨0, 0⟩ ⟨1 / 10 ^ 13, 0⟩ / max ((0:ℝ) - 0) (1 / 1000000000) > 5000)
    rw [sub_self, max_eq_right (by norm_num : (0:ℝ) ≤ 1 / 1000000000), gt_iff_lt, not_lt,
      div_le_iff₀ (by norm_num : (0:ℝ) < 1 / 1000000000), hdist]
    nlinarith

theorem floor_div_eq_of_mem {w x : ℝ} {k : ℤ} (hw : 0 < w)
    (h1 : (k : ℝ) * w ≤ x) (h2 : x < ((k : ℝ) + 1) * w) : ⌊x / w⌋ = k := by
  rw [Int.floor_eq_iff]
  constructor
  · rw [le_div_iff₀ hw]
    exact h1
  · rw [div_lt_iff₀ hw]
    exact h2

theorem chunkOf_origin (c : Coordinate) :
    chunkOf c 100 0 =
      ⟨⌊c.longitude / ((100:ℝ) / 111320)⌋, ⌊c.latitude / ((100:ℝ) / 110540)⌋⟩ := by
  unfold chunkOf toRadians
  norm_num

/-- C6: `chunkOf` floors longitude and latitude against the locally linear
degree-per-chunk sizes; at the reference latitude two coordinates inside the
same 100 m cell get the same chunk, and two coordinates 1.5 cells (150 m)
apart along longitude get different `chunk_x`. -/
theorem claim_C6_chunking :
    (∀ (coord : Coordinate) (s o : ℝ), chunkOf coord s o =
      ⟨⌊coord.longitude / (s / (111320 * Real.cos (toRadians o)))⌋,
       ⌊coord.latitude / (s / 110540)⌋⟩) ∧
    (∀ (k j : ℤ) (c1 c2 : Coordinate),
      (k : ℝ) * (100 / 111320) ≤ c1.longitude →
      c1.longitude < ((k : ℝ) + 1) * (100 / 111320) →
      (k : ℝ) * (100 / 111320) ≤ c2.longitude →
      c2.longitude < ((k : ℝ) + 1) * (100 / 111320) →
      (j : ℝ) * (100 / 110540) ≤ c1.latitude →
      c1.latitude < ((j : ℝ) + 1) * (100 / 110540) →
      (j : ℝ) * (100 / 110540) ≤ c2.latitude →
      c2.latitude < ((j : ℝ) + 1) * (100 / 110540) →
      chunkOf c1 100 0 = chunkOf c2 100 0) ∧
    (∀ lat lon : ℝ,
      (chunkOf ⟨lat, lon + (3 / 2) * (100 / 111320)⟩ 100 0).chunk_x ≠
        (chunkOf ⟨lat, lon⟩ 100 0).chunk_x) := by
  have hw : (0:ℝ) < 100 / 111320 := by norm_num
  have hh : (0:ℝ) < 100 / 110540 := by norm_num
  refine ⟨fun coord s o => rfl, ?_, ?_⟩
  · intro k j c1 c2 hx1 hx2 hx3 hx4 hy1 hy2 hy3 hy4
    rw [chunkOf_origin c1, chunkOf_origin c2,
      floor_div_eq_of_mem hw hx1 hx2, floor_div_eq_of_mem hw hx3 hx4,
      floor_div_eq_of_mem hh hy1 hy2, floor_div_eq_of_mem hh hy3 hy4]
  · intro lat lon
    rw [chunkOf_origin, chunkOf_origin]
    show ⌊(lon + (3 / 2) * (100 / 111320)) / ((100:ℝ) / 111320)⌋ ≠
      ⌊lon / ((100:ℝ) / 111320)⌋
    have hrw : (lon + (3 / 2) * ((100:ℝ) / 111320)) / ((100:ℝ) / 111320)
        = lon / ((100:ℝ) / 111320) + 3 / 2 := by
      field_simp
      ring
    rw [hrw]
    have h1 : ⌊lon / ((100:ℝ) / 111320)⌋ + 1 ≤ ⌊lon / ((100:ℝ) / 111320) + 3 / 2⌋ := by
      rw [Int.le_floor]
      push_cast
      have := Int.floor_le (lon / ((100:ℝ) / 111320))
      linarith
    intro heq
    omega

/-- Witness for C6's same-cell clause at concrete coordinates in cell
(0, 0). -/
theorem claim_C6_witness :
    chunkOf ⟨1 / 10000, 2 / 10000⟩ 100 0 = chunkOf ⟨5 / 10000, 4 / 10000⟩ 100 0 :=
  claim_C6_chunking.2.1 0 0 ⟨1 / 10000, 2 / 10000⟩ ⟨5 / 10000, 4 / 10000⟩
    (by norm_num) (by norm_num) (by norm_num) (by norm_num)
    (by norm_num) (by norm_num) (by norm_num) (by norm_num)

/-- Witness for C1: a mocked report at the origin is flagged `MOCKED`. -/
theorem claim_C1_witness :
    ReasonCode.MOCKED ∈
      (evaluateReport defaultConfig ⟨⟨0, 0⟩, 0, 0, true, 0⟩ none 0 []).reasons :=
  (claim_C1_mocked_flagged_independent defaultConfig
    ⟨⟨0, 0⟩, 0, 0, true, 0⟩ none 0 []).1.mpr rfl

/-- Witness for C2 (amended): zero elapsed time with zero movement does not
flag `IMPOSSIBLE_SPEED`. -/
theorem claim_C2_witness :
    ReasonCode.IMPOSSIBLE_SPEED ∉
      (evaluateReport defaultConfig ⟨⟨0, 0⟩, 0, 0, false, 0⟩
        (some ⟨⟨0, 0⟩, 0, 0, false, 0⟩) 0 []).reasons := by
  intro hmem
  have h := (claim_C2_impossible_speed.2 ⟨0, 0⟩ ⟨0, 0⟩ 0 0 0 false false 0 0 0 []).mp hmem
  rw [distanceMeters_self] at h
  norm_num at h

/-- Witness for C7: three reports today meets the default cap of 3. -/
theorem claim_C7_witness :
    ReasonCode.RATE_LIMIT_EXCEEDED ∈
      (evaluateReport defaultConfig ⟨⟨0, 0⟩, 0, 0, false, 0⟩ none 3 []).reasons :=
  (claim_C7_rate_limit defaultConfig ⟨⟨0, 0⟩, 0, 0, false, 0⟩ none 3 []).2.1

/-- Witness for C8: a prior placement at distance 0 (within 20 m) flags
`TOO_CLOSE_TO_EXISTING`. -/
theorem claim_C8_witness :
    ReasonCode.TOO_CLOSE_TO_EXISTING ∈
      (evaluateReport defaultConfig ⟨⟨0, 0⟩, 0, 0, false, 0⟩ none 0
        [⟨0, 0⟩]).reasons := by
  refine (claim_C8_too_close defaultConfig ⟨⟨0, 0⟩, 0, 0, false, 0⟩ none 0
    [⟨0, 0⟩]).2.mpr ?_
  refine ⟨⟨0, 0⟩, by simp, ?_⟩
  rw [distanceMeters_self]
  norm_num

theorem haversineRaw_mem_Icc {a b : Coordinate} (ha : a.isValid) (hb : b.isValid) :
    0 ≤ haversineRaw a b ∧ haversineRaw a b ≤ 1 := by
  obtain ⟨h1, h2⟩ := dotProduct_mem_Icc ha hb
  rw [haversineRaw_eq_half_sub]
  constructor <;> linarith

theorem calculateDistance_coords (a b : Coordinate) :
    calculateDistance a.latitude a.longitude b.latitude b.longitude =
      2 * EARTH_RADIUS_METERS *
        atan2 (Real.sqrt (haversineRaw a b)) (Real.sqrt (1 - haversineRaw a b)) := by
  have hA : Real.sin ((b.latitude - a.latitude) * Real.pi / 180 / 2) *
        Real.sin ((b.latitude - a.latitude) * Real.pi / 180 / 2) +
      Real.cos (a.latitude * Real.pi / 180) * Real.cos (b.latitude * Real.pi / 180) *
        Real.sin ((b.longitude - a.longitude) * Real.pi / 180 / 2) *
        Real.sin ((b.longitude - a.longitude) * Real.pi / 180 / 2)
      = haversineRaw a b := by
    unfold haversineRaw toRadians
    ring
  simp only [calculateDistance]
  rw [hA]
  unfold EARTH_RADIUS_METERS
  ring

theorem atan2_sqrt_eq_arcsin {h : ℝ} (h0 : 0 ≤ h) (h1 : h ≤ 1) :
    atan2 (Real.sqrt h) (Real.sqrt (1 - h)) = Real.arcsin (Real.sqrt h) := by
  rcases lt_or_eq_of_le h1 with hlt | heq
  · have hx : 0 < Real.sqrt (1 - h) := Real.sqrt_pos.2 (by linarith)
    unfold atan2
    rw [if_pos hx]
    have hs1 : Real.sqrt h < 1 := by
      rw [show (1:ℝ) = Real.sqrt 1 by rw [Real.sqrt_one]]
      exact Real.sqrt_lt_sqrt h0 hlt
    have hmem : Real.sqrt h ∈ Set.Ioo (-(1:ℝ)) 1 :=
      ⟨lt_of_lt_of_le (by norm_num) (Real.sqrt_nonneg h), hs1⟩
    rw [Real.arcsin_eq_arctan hmem, Real.sq_sqrt h0]
  · subst heq
    rw [sub_self, Real.sqrt_zero, Real.sqrt_one]
    unfold atan2
    norm_num [Real.arcsin_one]

theorem calculateDistance_eq_distanceMeters {a b : Coordinate}
    (ha : a.isValid) (hb : b.isValid) :
    calculateDistance a.latitude a.longitude b.latitude b.longitude =
      distanceMeters a b := by
  obtain ⟨h0, h1⟩ := haversineRaw_mem_Icc ha hb
  rw [calculateDistance_coords, atan2_sqrt_eq_arcsin h0 h1]
  rfl

theorem calculateDistance_self (lat lon : ℝ) : calculateDistance lat lon lat lon = 0 := by
  simp only [calculateDistance, sub_self, zero_mul, zero_div, Real.sin_zero, mul_zero,
    add_zero, zero_add, Real.sqrt_zero, sub_zero, Real.sqrt_one]
  unfold atan2
  norm_num

theorem isWithinRadius_none (tlat tlng r : ℝ) : isWithinRadius none tlat tlng r = false :=
  rfl

theorem isWithinRadius_some_iff (loc : Coordinate) (tlat tlng r : ℝ) :
    isWithinRadius (some loc) tlat tlng r = true ↔
      calculateDistance loc.latitude loc.longitude tlat tlng ≤ r := by
  simp only [isWithinRadius]
  rw [decide_eq_true_eq]

/-- C3 counterexample: the implemented `isWithinRadius` (the `useLocation`
hook in `api.ts`) has no failure mode at all — with a non-positive radius it
returns an ordinary boolean rather than failing with `InvalidRadius`:
radius -1 yields `false`, and radius 0 at distance 0 yields `true` (so it
does not fail at radius 0 either, and at distance 0 it even succeeds
affirmatively). -/
theorem claim_C3_counterexample :
    isWithinRadius (some ⟨0, 0⟩) 0 0 (-1) = false ∧
    isWithinRadius (some ⟨0, 0⟩) 0 0 0 = true := by
  constructor
  · simp only [isWithinRadius]
    rw [decide_eq_false_iff_not]
    rw [show calculateDistance (0:ℝ) 0 0 0 = 0 from calculateDistance_self 0 0]
    norm_num
  · simp only [isWithinRadius]
    rw [decide_eq_true_eq]
    rw [show calculateDistance (0:ℝ) 0 0 0 = 0 from calculateDistance_self 0 0]

/-- C3 (amended): the implemented `isWithinRadius` never fails: with no
current location it returns `false`; with a current location it returns the
boolean `calculateDistance(current, target) ≤ radiusMeters` for every
radius, zero and negative included, and the boundary is inclusive — a
distance exactly equal to the radius yields `true`. -/
theorem claim_C3_within_radius :
    (∀ tlat tlng r : ℝ, isWithinRadius none tlat tlng r = false) ∧
    (∀ (loc : Coordinate) (tlat tlng r : ℝ),
      isWithinRadius (some loc) tlat tlng r = true ↔
        calculateDistance loc.latitude loc.longitude tlat tlng ≤ r) ∧
    (∀ (loc : Coordinate) (tlat tlng r : ℝ),
      calculateDistance loc.latitude loc.longitude tlat tlng = r →
        isWithinRadius (some loc) tlat tlng r = true) := by
  refine ⟨isWithinRadius_none, isWithinRadius_some_iff, ?_⟩
  intro loc tlat tlng r hd
  rw [isWithinRadius_some_iff, hd]

/-- Witness for C3 (amended): at distance exactly equal to the radius (both
zero) the result is `true` — the inclusive boundary. -/
theorem claim_C3_witness :
    isWithinRadius (some ⟨0, 0⟩) 0 0 0 = true :=
  claim_C3_within_radius.2.2 ⟨0, 0⟩ 0 0 0 (calculateDistance_self 0 0)

/-- C4: the implemented distance function `calculateDistance` is symmetric
on valid coordinates and returns 0 for identical coordinates. -/
theorem claim_C4_symm_self :
    (∀ a b : Coordinate, a.isValid → b.isValid →
      calculateDistance a.latitude a.longitude b.latitude b.longitude =
        calculateDistance b.latitude b.longitude a.latitude a.longitude) ∧
    (∀ a : Coordinate, a.isValid →
      calculateDistance a.latitude a.longitude a.latitude a.longitude = 0) := by
  constructor
  · intro a b ha hb
    rw [calculateDistance_eq_distanceMeters ha hb,
      calculateDistance_eq_distanceMeters hb ha, distanceMeters_comm]
  · intro a _
    exact calculateDistance_self a.latitude a.longitude

/-- Witness for C4 at concrete valid coordinates. -/
theorem claim_C4_witness :
    calculateDistance 10 20 30 40 = calculateDistance 30 40 10 20 ∧
    calculateDistance 10 20 10 20 = 0 :=
  ⟨claim_C4_symm_self.1 ⟨10, 20⟩ ⟨30, 40⟩
      (by norm_num [Coordinate.isValid]) (by norm_num [Coordinate.isValid]),
   claim_C4_symm_self.2 ⟨10, 20⟩ (by norm_num [Coordinate.isValid])⟩

/-- C5: the implemented `calculateDistance` gives ≈111,320 m (±1%) between
{0,0} and {0,1}, and on valid coordinates less than 50 km apart it is within
0.5% of the true great-circle distance (in exact real arithmetic it agrees
exactly). -/
theorem claim_C5_accuracy :
    |calculateDistance 0 0 0 1 - 111320| ≤ (1 / 100) * 111320 ∧
    ∀ a b : Coordinate, a.isValid → b.isValid →
      calculateDistance a.latitude a.longitude b.latitude b.longitude < 50000 →
      |calculateDistance a.latitude a.longitude b.latitude b.longitude -
          trueGreatCircleDistanceMeters a b| ≤
        (5 / 1000) * trueGreatCircleDistanceMeters a b := by
  constructor
  · have hbridge : calculateDistance 0 0 0 1 = distanceMeters ⟨0, 0⟩ ⟨0, 1⟩ :=
      @calculateDistance_eq_distanceMeters ⟨0, 0⟩ ⟨0, 1⟩
        (by norm_num [Coordinate.isValid]) (by norm_num [Coordinate.isValid])
    rw [hbridge, distanceMeters_lonOffset (by norm_num) (by norm_num), abs_le]
    have h1 := Real.pi_gt_d6
    have h2 := Real.pi_lt_d6
    constructor <;> nlinarith
  · intro a b ha hb _
    rw [calculateDistance_eq_distanceMeters ha hb,
      distanceMeters_eq_trueGreatCircle ha hb, sub_self, abs_zero]
    have h0 : 0 ≤ trueGreatCircleDistanceMeters a b := by
      unfold trueGreatCircleDistanceMeters EARTH_RADIUS_METERS
      exact mul_nonneg (by norm_num) (Real.arccos_nonneg _)
    linarith

/-- Witness for C5 at concrete valid coordinates less than 50 km apart. -/
theorem claim_C5_witness :
    |calculateDistance 0 0 0 0 - trueGreatCircleDistanceMeters ⟨0, 0⟩ ⟨0, 0⟩| ≤
      (5 / 1000) * trueGreatCircleDistanceMeters ⟨0, 0⟩ ⟨0, 0⟩ :=
  claim_C5_accuracy.2 ⟨0, 0⟩ ⟨0, 0⟩
    (by norm_num [Coordinate.isValid]) (by norm_num [Coordinate.isValid])
    (by show calculateDistance 0 0 0 0 < 50000
        rw [calculateDistance_self]
        norm_num)

/-- C9 counterexample: with an out-of-range latitude (200) the implemented
operations still return ordinary results — `calculateDistance` the number 0
and `isWithinRadius` the boolean `true` — instead of failing with
`InvalidCoordinate`. -/
theorem claim_C9_counterexample :
    calculateDistance 200 0 200 0 = 0 ∧
    isWithinRadius (some ⟨200, 0⟩) 200 0 1 = true := by
  refine ⟨calculateDistance_self 200 0, ?_⟩
  rw [isWithinRadius_some_iff]
  rw [show calculateDistance (200:ℝ) 0 200 0 = 0 from calculateDistance_self 200 0]
  norm_num

/-- C9 (amended): the geo operations implemented in the repository are
total and never fail: `calculateDistance` returns a plain number for every
input (0 for identical points, in or out of range), and the hook's
`isWithinRadius` returns a plain boolean for every input — `false` when no
current location exists, else `distance ≤ radius` with no validation of the
radius or the coordinates; the `InvalidCoordinate`/`InvalidRadius` taxonomy
does not exist in the code. -/
theorem claim_C9_no_validation :
    (∀ lat lon : ℝ, calculateDistance lat lon lat lon = 0) ∧
    (∀ tlat tlng r : ℝ, isWithinRadius none tlat tlng r = false) ∧
    (∀ (loc : Coordinate) (tlat tlng r : ℝ),
      isWithinRadius (some loc) tlat tlng r = true ↔
        calculateDistance loc.latitude loc.longitude tlat tlng ≤ r) :=
  ⟨calculateDistance_self, isWithinRadius_none, isWithinRadius_some_iff⟩

/-- Witness for C9 at concrete inputs, one of them out of range. -/
theorem claim_C9_witness :
    isWithinRadius none 0 0 1 = false ∧ calculateDistance 200 0 200 0 = 0 :=
  ⟨claim_C9_no_validation.2.1 0 0 1, claim_C9_no_validation.1 200 0⟩

end ProximityGuard


namespace LocationStore

/-- C10: in every reachable state of the location store `currentLocation`
equals `lastKnownLocation` — both start null and every `set` call either
leaves both untouched or writes the same value to both in one update. -/
theorem claim_C10_location_sync (s : LocationState) (h : Reachable s) :
    s.currentLocation = s.lastKnownLocation := by
  induction h with
  | refl => rfl
  | tail _ hstep ih =>
      cases hstep <;>
        simp_all [applyPermissionStatus, applyPermissionDenied,
          applyPermissionRequestFailed, applyGetLocationLoading,
          applyGetLocationSuccess, applyGetLocationFailure, applyWatchUpdate,
          applyWatchStarted, applyWatchFailed, applyStopWatching,
          applySetLocation, applyClearError, applyReset, initialState]

/-- Witness for C10 at the reachable state produced by one `setLocation`
call. -/
theorem claim_C10_witness :
    (applySetLocation ⟨10, 20⟩ initialState).currentLocation =
      (applySetLocation ⟨10, 20⟩ initialState).lastKnownLocation :=
  claim_C10_location_sync _
    (Relation.ReflTransGen.tail Relation.ReflTransGen.refl
      (Step.setLocation ⟨10, 20⟩ initialState))

end LocationStore
